import Mathlib

/-!
Shallow embedding of `src/detox/src/client/Client.js` (the Detox control-channel
client orchestrator) and of the transport/error-utility interfaces it relies on.

The transport (`AsyncWebSocket`) and the error utilities live in this repository
but outside `src/`, so they are modelled from the spec (sections 3, 6, 7 and the
design notes), each such definition carrying a `Modelled from the spec:` note.
Everything in the `Client` namespace is translated directly from `Client.js`;
line numbers in doc comments refer to that file.

Asynchronous sends are embedded by passing each dispatch's outcome
(`Except JsError _`) as an explicit environment parameter: `sendAction` either
returns the action's interpreted result or throws.  The watchdog timer's
interleaved behaviour (spec section 5: single-threaded cooperative scheduling,
suspension points at awaits and timer firings) is embedded separately as an
explicit event-step machine (`WatchdogState`/`wstep`).
-/

deriving instance DecidableEq for Except

/-- An app-crash error detail, the opaque payload carried by the
app-will-terminate notice (`response.params.errorDetails`, Client.js line 19). -/
structure ErrorDetail where
  detail : String
  deriving DecidableEq

/-- One entry of a JavaScript error's stack trace; `internal` marks frames that
belong to the orchestration layer. -/
structure StackFrame where
  text : String
  internal : Bool
  deriving DecidableEq

/-- A JavaScript error value: a message plus a stack. -/
structure JsError where
  message : String
  stack : List StackFrame
  deriving DecidableEq

/-- Modelled from the spec: `removeInternalStackEntries` (from
`src/detox/src/utils/errorUtils`, not under `src/`) strips the internal
orchestration-layer frames from an error's stack "so the reported stack
reflects only caller-relevant frames" (spec section 4.2). -/
def removeInternalStackEntries (e : JsError) : JsError :=
  { e with stack := e.stack.filter (fun f => !f.internal) }

/-- Modelled from the spec: `asError` (from `src/detox/src/utils/errorUtils`,
not under `src/`) coerces a thrown value to an error; errors are already
`JsError` in this embedding, so it is the identity on them. -/
def asError (e : JsError) : JsError := e

/-- A framed wire message as kept in the transport's in-flight bookkeeping:
correlation id, string message kind, serialized params (spec section 6:
"an inspectable mapping of in-flight entries each exposing id, kind, params"). -/
structure Message where
  messageId : Nat
  type : String
  params : String
  deriving DecidableEq

/-- The settlement state of one in-flight correlated promise. -/
inductive PromiseStatus where
  | pending
  | resolved
  | rejected (err : ErrorDetail)
  deriving DecidableEq

/-- Modelled from the spec: one in-flight request owned by the transport —
a message awaiting its correlated reply, with its pending promise
(spec section 3, InFlightRequest). -/
structure InFlightPromise where
  message : Message
  status : PromiseStatus
  deriving DecidableEq

/-- Modelled from the spec: the transport (`AsyncWebSocket`, not under `src/`) —
a persistent bidirectional channel with an open/closed state and in-flight
request bookkeeping (spec sections 2, 6). -/
structure AsyncWebSocket where
  isOpenFlag : Bool
  inFlightPromises : List InFlightPromise
  deriving DecidableEq

/-- Modelled from the spec: `isOpen()` reports the channel's open/closed state. -/
def AsyncWebSocket.isOpen (ws : AsyncWebSocket) : Bool := ws.isOpenFlag

/-- How `rejectAll` treats one in-flight entry: a pending promise is rejected
with the given error detail, an already-settled one is left alone. -/
def rejectPendingEntry (err : ErrorDetail) (p : InFlightPromise) : InFlightPromise :=
  match p.status with
  | PromiseStatus.pending => { p with status := PromiseStatus.rejected err }
  | _ => p

/-- Modelled from the spec: `rejectAll(errorDetail)` rejects every currently
pending request-flow promise with that error (spec sections 4.3 and 9:
"crash interception iterates the registry and resolves each handle with a
failure value"). -/
def AsyncWebSocket.rejectAll (ws : AsyncWebSocket) (err : ErrorDetail) : AsyncWebSocket :=
  { ws with inFlightPromises := ws.inFlightPromises.map (rejectPendingEntry err) }

/-- Modelled from the spec: `resetInFlightPromises()` clears the transport's
in-flight bookkeeping (spec sections 4.6, 6). -/
def AsyncWebSocket.resetInFlightPromises (ws : AsyncWebSocket) : AsyncWebSocket :=
  { ws with inFlightPromises := [] }

/-- Modelled from the spec: `close()` tears the channel down, leaving it closed
(spec section 6: `close() -> async`). -/
def AsyncWebSocket.close (ws : AsyncWebSocket) : AsyncWebSocket :=
  { ws with isOpenFlag := false }

/-- Modelled from the spec: `open()` opens the channel (spec section 6). -/
def AsyncWebSocket.openChannel (ws : AsyncWebSocket) : AsyncWebSocket :=
  { ws with isOpenFlag := true }

/-- The client configuration consumed at construction: a server endpoint and a
session identifier (Client.js lines 9-12, spec section 6). -/
structure Config where
  server : String
  sessionId : String
  deriving DecidableEq

/-- The mutable state owned by the `Client` orchestrator, one field per field
assigned in the constructor (Client.js lines 9-22).  `slowInvocationStatusHandler`
holds the id of the most recently armed watchdog timer (stale after
`clearTimeout`, exactly as the JS field keeps a cleared handle), and
`slowInvocationTimeout` the optional configured watchdog interval. -/
structure ClientState where
  isConnected : Bool
  configuration : Config
  ws : AsyncWebSocket
  slowInvocationStatusHandler : Option Nat
  slowInvocationTimeout : Option Nat
  successfulTestRun : Bool
  pandingAppCrash : Option ErrorDetail
  deriving DecidableEq

namespace Client

/-- The constructor (Client.js lines 9-22): not connected, fresh closed
transport, no watchdog handle, run marked successful, no pending crash.
The watchdog interval comes from argument parsing (line 14), passed in here. -/
def construct (config : Config) (slowInvocationTimeout : Option Nat) : ClientState :=
  { isConnected := false
  , configuration := config
  , ws := { isOpenFlag := false, inFlightPromises := [] }
  , slowInvocationStatusHandler := none
  , slowInvocationTimeout := slowInvocationTimeout
  , successfulTestRun := true
  , pandingAppCrash := none }

/-- The standing app-crash listener installed at construction (Client.js
lines 18-21): store the notice's error detail in `pandingAppCrash`, then tell
the transport to reject every pending promise with it. -/
def appWillTerminateListener (s : ClientState) (errorDetails : ErrorDetail) : ClientState :=
  let s1 := { s with pandingAppCrash := some errorDetails }
  { s1 with ws := s1.ws.rejectAll errorDetails }

/-- `getPendingCrashAndReset()` (Client.js lines 109-114): read the pending
crash, clear the field, return what was read. -/
def getPendingCrashAndReset (s : ClientState) : Option ErrorDetail × ClientState :=
  let crash := s.pandingAppCrash
  (crash, { s with pandingAppCrash := none })

/-- JavaScript truthiness of `this.slowInvocationTimeout` at Client.js line 95:
absent or zero disables the watchdog (spec section 6: "zero/absent disables"). -/
def timeoutConfigured (s : ClientState) : Bool :=
  match s.slowInvocationTimeout with
  | some t => t != 0
  | none => false

/-- `connect()` (Client.js lines 24-27): open the transport, then send a login
action.  The outcomes of the two awaits are environment parameters; a failure
of either propagates and leaves the remaining statements unexecuted. -/
def connect (s : ClientState) (openOutcome loginOutcome : Except JsError Unit) :
    Except JsError Unit × ClientState :=
  match openOutcome with
  | Except.error e => (Except.error e, s)
  | Except.ok _ =>
    let s1 := { s with ws := s.ws.openChannel }
    match loginOutcome with
    | Except.error e => (Except.error e, s1)
    | Except.ok _ => (Except.ok (), s1)

/-- `waitUntilReady()` (Client.js lines 33-36): send a ready action; only when
that send succeeds is `isConnected` set to true. -/
def waitUntilReady (s : ClientState) (readyOutcome : Except JsError Unit) :
    Except JsError Unit × ClientState :=
  match readyOutcome with
  | Except.error e => (Except.error e, s)
  | Except.ok _ => (Except.ok (), { s with isConnected := true })

/-- The argument of `execute` (Client.js lines 90-93): either a ready
invocation value or a zero-argument producer of one, which may itself throw. -/
inductive Invocation (α : Type) where
  | value (v : α)
  | producer (f : Unit → Except JsError α)

/-- The normalization at Client.js lines 91-93: call the producer if the
argument is a function.  A throw here happens before the try/catch. -/
def normalizeInvocation {α : Type} (invocation : Invocation α) : Except JsError α :=
  match invocation with
  | Invocation.value v => Except.ok v
  | Invocation.producer f => f ()

/-- `execute(invocation)` (Client.js lines 90-107).  `sendInvoke v` is the
environment's outcome of `sendAction(new actions.Invoke(v))` — the Invoke
action's interpreted result, or the error it threw.  `freshTimerId` is the
timer handle `setTimeout` would return if the watchdog is armed (line 96);
the `finally` block's `clearTimeout` (line 105) cancels the scheduled timer
but, as in JS, does not null the handler field.  A producer throw at line 92
propagates before the watchdog is armed and before the try/catch. -/
def execute {α β : Type} (s : ClientState) (invocation : Invocation α)
    (sendInvoke : α → Except JsError β) (freshTimerId : Nat) :
    Except JsError β × ClientState :=
  match normalizeInvocation invocation with
  | Except.error e => (Except.error e, s)
  | Except.ok v =>
    let s1 := if timeoutConfigured s
              then { s with slowInvocationStatusHandler := some freshTimerId }
              else s
    match sendInvoke v with
    | Except.ok r => (Except.ok r, s1)
    | Except.error err =>
      (Except.error (removeInternalStackEntries (asError err)),
       { s1 with successfulTestRun := false })

/-- What a run of `cleanup()` produced: whether the call itself resolved or
rejected, the resulting state, and the parameter of the Cleanup action if one
was sent (`none` when no cleanup action was dispatched). -/
structure CleanupOutcome where
  result : Except JsError Unit
  state : ClientState
  sentCleanup : Option Bool
  deriving DecidableEq

/-- `cleanup()` (Client.js lines 46-58).  `clearTimeout` (line 47) cancels any
armed watchdog timer and never throws.  If connected with no pending crash:
when the channel is open, `sendAction(new actions.Cleanup(successfulTestRun))`
is awaited — a rejection there propagates out of `cleanup` before
`isConnected = false` (line 52) runs; on success (or with the channel closed)
`isConnected` is cleared.  Finally the channel is closed if still open
(lines 55-57). -/
def cleanup (s : ClientState) (cleanupSendOutcome : Except JsError Unit) : CleanupOutcome :=
  if s.isConnected && s.pandingAppCrash.isNone then
    if s.ws.isOpen then
      match cleanupSendOutcome with
      | Except.error e =>
        { result := Except.error e, state := s, sentCleanup := some s.successfulTestRun }
      | Except.ok _ =>
        let s1 := { s with isConnected := false }
        if s1.ws.isOpen then
          { result := Except.ok (), state := { s1 with ws := s1.ws.close }
          , sentCleanup := some s.successfulTestRun }
        else
          { result := Except.ok (), state := s1, sentCleanup := some s.successfulTestRun }
    else
      let s1 := { s with isConnected := false }
      if s1.ws.isOpen then
        { result := Except.ok (), state := { s1 with ws := s1.ws.close }, sentCleanup := none }
      else
        { result := Except.ok (), state := s1, sentCleanup := none }
  else
    if s.ws.isOpen then
      { result := Except.ok (), state := { s with ws := s.ws.close }, sentCleanup := none }
    else
      { result := Except.ok (), state := s, sentCleanup := none }

/-- What a run of `dumpPendingRequests` produced: the warning emitted via
`log.warn` (if any) and the resulting state. -/
structure DumpOutcome where
  warning : Option String
  state : ClientState
  deriving DecidableEq

/-- One formatted line of the pending-requests dump (Client.js line 158). -/
def formatPendingLine (msg : Message) : String :=
  "\n  (id = " ++ toString msg.messageId ++ ") " ++ msg.type ++ ": " ++ msg.params

/-- `dumpPendingRequests({testName})` (Client.js lines 147-169): take the
in-flight messages, drop the currentStatus ones, and if any remain format one
line per message plus a contextual notice, emit the dump as a warning, and
clear the transport's in-flight bookkeeping.  If none remain, return early
with no warning and no state change. -/
def dumpPendingRequests (s : ClientState) (testName : Option String) : DumpOutcome :=
  let messages := (s.ws.inFlightPromises.map (fun p => p.message)).filter
    (fun m => m.type != "currentStatus")
  if messages.isEmpty then
    { warning := none, state := s }
  else
    let dump := messages.foldl (fun acc msg => acc ++ formatPendingLine msg)
      "App has not responded to the network requests below:"
    let notice := match testName with
      | some t => "That might be the reason why the test \"" ++ t ++ "\" has timed out."
      | none => "Unresponded network requests might result in timeout errors in Detox tests."
    { warning := some (dump ++ "\n\n" ++ notice ++ "\n")
    , state := { s with ws := s.ws.resetInFlightPromises } }

end Client

/-- One invocation of a public client operation, bundling the environment
outcomes the operation's awaits would observe.  `simpleSendOp kind outcome`
stands for the methods that only dispatch one action and touch no client state
(reloadReactNative, waitForBackground, waitForActive, currentStatus,
setSyncSettings, shake, setOrientation, start/stopInstrumentsRecording,
deliverPayload — Client.js lines 29-31, 38-44, 60-88).  `crashNoticeOp` is the
arrival of an app-will-terminate notice at the standing listener. -/
inductive ClientOp where
  | connectOp (openOutcome loginOutcome : Except JsError Unit)
  | waitUntilReadyOp (readyOutcome : Except JsError Unit)
  | simpleSendOp (kind : String) (outcome : Except JsError Unit)
  | executeOp (invocation : Client.Invocation String)
      (sendInvoke : String → Except JsError String) (freshTimerId : Nat)
  | cleanupOp (cleanupSendOutcome : Except JsError Unit)
  | crashNoticeOp (errorDetails : ErrorDetail)
  | getPendingCrashAndResetOp
  | dumpPendingRequestsOp (testName : Option String)

namespace Client

/-- The state transition of one public operation, dispatching to the
per-operation definitions above.  The simple send methods leave the client
state unchanged: their bodies are a single `await this.sendAction(...)`. -/
def step (s : ClientState) (op : ClientOp) : ClientState :=
  match op with
  | ClientOp.connectOp o l => (connect s o l).2
  | ClientOp.waitUntilReadyOp r => (waitUntilReady s r).2
  | ClientOp.simpleSendOp _ _ => s
  | ClientOp.executeOp inv send tid => (execute s inv send tid).2
  | ClientOp.cleanupOp o => (cleanup s o).state
  | ClientOp.crashNoticeOp d => appWillTerminateListener s d
  | ClientOp.getPendingCrashAndResetOp => (getPendingCrashAndReset s).2
  | ClientOp.dumpPendingRequestsOp t => (dumpPendingRequests s t).state

/-- The action kinds dispatched through the transport during one public
operation, read off each method body.  `connect` sends its login only once the
channel opened; a producer throw in `execute` happens before the Invoke is
built (line 92 precedes line 100); `cleanup` sends only in its
connected/no-crash/channel-open branch; the crash listener, the crash getter
and the diagnostics dump send nothing (the dump only logs a warning). -/
def stepSends (s : ClientState) (op : ClientOp) : List String :=
  match op with
  | ClientOp.connectOp o _ =>
    match o with
    | Except.error _ => []
    | Except.ok _ => ["login"]
  | ClientOp.waitUntilReadyOp _ => ["ready"]
  | ClientOp.simpleSendOp kind _ => [kind]
  | ClientOp.executeOp inv _ _ =>
    match normalizeInvocation inv with
    | Except.error _ => []
    | Except.ok _ => ["invoke"]
  | ClientOp.cleanupOp _ =>
    if s.isConnected && s.pandingAppCrash.isNone && s.ws.isOpen then ["cleanup"] else []
  | ClientOp.crashNoticeOp _ => []
  | ClientOp.getPendingCrashAndResetOp => []
  | ClientOp.dumpPendingRequestsOp _ => []

end Client

/-! ### The watchdog at suspension-point granularity

`slowInvocationStatus()` (Client.js lines 138-145) schedules a timer whose
callback, when it fires, checks `ws.isOpen()`, awaits a currentStatus action,
and then reschedules itself, storing the new handle.  `execute`'s `finally`
(line 105) runs `clearTimeout(this.slowInvocationStatusHandler)` when the
invocation settles.  Per spec section 5 the system is single-threaded and
cooperative, with timer firings and awaits as the suspension points; the
machine below steps one such event at a time. -/

/-- The timer-level state during one invocation that armed the watchdog:
which timer ids are currently scheduled, the client's handler field, the next
fresh `setTimeout` handle, whether a fired callback is suspended awaiting its
currentStatus reply, how many status queries were sent (and how many of those
after the invocation settled), whether the invocation has settled, and the
channel's open state. -/
structure WatchdogState where
  scheduled : List Nat
  handler : Option Nat
  nextId : Nat
  awaitingStatusReply : Bool
  statusSent : Nat
  statusSentAfterSettle : Nat
  settled : Bool
  wsOpen : Bool
  deriving DecidableEq

/-- `this.slowInvocationStatusHandler = this.slowInvocationStatus()` (Client.js
lines 96 and 142): schedule a fresh timer and store its handle. -/
def scheduleStatusTimer (w : WatchdogState) : WatchdogState :=
  { w with
    scheduled := w.scheduled ++ [w.nextId],
    handler := some w.nextId,
    nextId := w.nextId + 1 }

/-- The events that can occur between suspension points while an invocation is
outstanding: arming the watchdog (line 96), a scheduled timer firing and its
callback running up to the currentStatus await (lines 139-141), that await
resolving so the callback reschedules (line 142), and the invocation settling,
which runs the `finally` block's `clearTimeout` (line 105). -/
inductive WatchdogEvent where
  | arm
  | timerFire (id : Nat)
  | statusReply
  | invokeSettle
  deriving DecidableEq

/-- One event step of the watchdog machine.  A fire of a timer that is no
longer scheduled is a no-op (`clearTimeout` removed it); a fired callback with
the channel closed does nothing (lines 140-143); `clearTimeout` at settle time
removes the handler's timer from the schedule if it is still there — it cannot
recall a callback that already fired. -/
def wstep (w : WatchdogState) (e : WatchdogEvent) : WatchdogState :=
  match e with
  | WatchdogEvent.arm => scheduleStatusTimer w
  | WatchdogEvent.timerFire id =>
    if w.scheduled.contains id then
      let w1 := { w with scheduled := w.scheduled.erase id }
      if w1.wsOpen then
        { w1 with
          statusSent := w1.statusSent + 1,
          statusSentAfterSettle :=
            w1.statusSentAfterSettle + (if w1.settled then 1 else 0),
          awaitingStatusReply := true }
      else w1
    else w
  | WatchdogEvent.statusReply =>
    if w.awaitingStatusReply then
      scheduleStatusTimer { w with awaitingStatusReply := false }
    else w
  | WatchdogEvent.invokeSettle =>
    let w1 := { w with settled := true }
    match w1.handler with
    | some id => { w1 with scheduled := w1.scheduled.erase id }
    | none => w1

/-- Run the watchdog machine over a sequence of events. -/
def wrun (w : WatchdogState) (es : List WatchdogEvent) : WatchdogState :=
  es.foldl wstep w

/-- The machine state at the moment `execute` arms the watchdog: nothing
scheduled yet, no handle, invocation outstanding, channel open. -/
def watchdogInit : WatchdogState :=
  { scheduled := []
  , handler := none
  , nextId := 0
  , awaitingStatusReply := false
  , statusSent := 0
  , statusSentAfterSettle := 0
  , settled := false
  , wsOpen := true }

/-! ### Concrete fixtures used by witnesses and counterexamples -/

/-- A sample configuration. -/
def cfg0 : Config := { server := "ws://localhost:8099", sessionId := "session-1" }

/-- A sample crash error detail. -/
def dC : ErrorDetail := { detail := "SIGSEGV in app" }

/-- A sample pending in-flight invoke request. -/
def pendingInvoke : InFlightPromise :=
  { message := { messageId := 7, type := "invoke", params := "[]" }
  , status := PromiseStatus.pending }

/-- A freshly constructed client whose transport is open and holds one pending
invoke request. -/
def sC1 : ClientState :=
  { Client.construct cfg0 none with
    ws := { isOpenFlag := true, inFlightPromises := [pendingInvoke] } }

/-- A connected client with an open, idle channel and no pending crash. -/
def sConnectedOpen : ClientState :=
  { Client.construct cfg0 none with
    isConnected := true
  , ws := { isOpenFlag := true, inFlightPromises := [] } }

/-- A connected client with an open channel and a pending crash. -/
def sConnectedCrash : ClientState :=
  { sConnectedOpen with pandingAppCrash := some dC }

/-- An error thrown by a failing zero-argument producer; it carries one
internal orchestration frame, so sanitization would change it. -/
def errProducer : JsError :=
  { message := "producer failed"
  , stack := [ { text := "at Client.execute", internal := true }
             , { text := "at testBody", internal := false } ] }

/-- An error with which the environment fails a send. -/
def errSend : JsError := { message := "send failed", stack := [] }

/-! ### Helper lemmas shared between claims -/

/-- `execute` never touches the connection flag, the pending crash, or the
transport: it only arms the watchdog handle and possibly clears the
run-success flag. -/
theorem execute_preserves_frame {α β : Type} (s : ClientState)
    (invocation : Client.Invocation α) (sendInvoke : α → Except JsError β)
    (tid : Nat) :
    (Client.execute s invocation sendInvoke tid).2.isConnected = s.isConnected
  ∧ (Client.execute s invocation sendInvoke tid).2.pandingAppCrash = s.pandingAppCrash
  ∧ (Client.execute s invocation sendInvoke tid).2.ws = s.ws := by
  unfold Client.execute
  cases hn : Client.normalizeInvocation invocation with
  | error e => simp [hn]
  | ok v =>
    cases h2 : sendInvoke v with
    | ok r => by_cases h : Client.timeoutConfigured s = true <;> simp [hn, h2, h]
    | error e => by_cases h : Client.timeoutConfigured s = true <;> simp [hn, h2, h]

/-- When the connected/no-crash/channel-open branch of `cleanup` is taken, a
Cleanup action parameterized by the current run-success flag is dispatched,
whatever the send's outcome. -/
theorem cleanup_sentCleanup_eligible (s : ClientState) (o : Except JsError Unit)
    (hc : s.isConnected = true) (hp : s.pandingAppCrash = none)
    (ho : s.ws.isOpenFlag = true) :
    (Client.cleanup s o).sentCleanup = some s.successfulTestRun := by
  cases o <;> simp [Client.cleanup, AsyncWebSocket.isOpen, hc, hp, ho]

/-- `dumpPendingRequests` can only touch the transport's bookkeeping, never
the connection flag. -/
theorem dump_preserves_isConnected (s : ClientState) (t : Option String) :
    (Client.dumpPendingRequests s t).state.isConnected = s.isConnected := by
  unfold Client.dumpPendingRequests
  dsimp only
  split <;> rfl

/-- A completed (non-throwing) `cleanup` leaves the connection flag true
exactly when the client was connected and a crash was pending: the
crash-pending branch skips the flag reset. -/
theorem cleanup_completed_isConnected (s : ClientState) (o : Except JsError Unit)
    (h : (Client.cleanup s o).result = Except.ok ()) :
    (Client.cleanup s o).state.isConnected = (s.isConnected && s.pandingAppCrash.isSome) := by
  cases o <;> cases hcn : s.isConnected <;>
    rcases hpc : s.pandingAppCrash with _ | d <;> cases hws : s.ws.isOpenFlag <;>
    simp_all [Client.cleanup, AsyncWebSocket.isOpen, AsyncWebSocket.close]

/-- A completed `cleanup` on a client that was not connected, or had a crash
pending, cannot have set the flag: only `waitUntilReady` sets it. -/
theorem cleanup_state_isConnected_true (s : ClientState) (o : Except JsError Unit)
    (h : (Client.cleanup s o).state.isConnected = true) : s.isConnected = true := by
  cases o <;> cases hcn : s.isConnected <;>
    rcases hpc : s.pandingAppCrash with _ | d <;> cases hws : s.ws.isOpenFlag <;>
    simp_all [Client.cleanup, AsyncWebSocket.isOpen, AsyncWebSocket.close]




/-! ### Claims -/

/-- C1: after an app-crash notice is delivered to the crash listener, every
promise that was pending in the transport is rejected with that crash's error
detail, the crash is stored, `getPendingCrashAndReset()` returns the detail on
its first call after the crash, and every subsequent call (any number of
further resets, with no new crash notice in between) returns none. -/
theorem claim_C1_crash_handling (s : ClientState) (d : ErrorDetail) :
    (∀ p ∈ s.ws.inFlightPromises, p.status = PromiseStatus.pending →
       { p with status := PromiseStatus.rejected d }
         ∈ (Client.appWillTerminateListener s d).ws.inFlightPromises)
  ∧ (Client.appWillTerminateListener s d).pandingAppCrash = some d
  ∧ (Client.getPendingCrashAndReset (Client.appWillTerminateListener s d)).1 = some d
  ∧ (∀ n : Nat,
      (Client.getPendingCrashAndReset
        ((fun t => (Client.getPendingCrashAndReset t).2)^[n + 1]
          (Client.appWillTerminateListener s d))).1 = none) := by
  refine ⟨?_, rfl, rfl, ?_⟩
  · intro p hp hpend
    have hmem := List.mem_map_of_mem (rejectPendingEntry d) hp
    have hrw : rejectPendingEntry d p = { p with status := PromiseStatus.rejected d } := by
      simp [rejectPendingEntry, hpend]
    rw [hrw] at hmem
    exact hmem
  · intro n
    rw [Function.iterate_succ_apply']
    rfl

/-- C1 witness: a crash notice with detail `dC` delivered to a client holding
one pending invoke request leaves that request rejected with `dC`. -/
theorem claim_C1_witness :
    ({ message := { messageId := 7, type := "invoke", params := "[]" }
     , status := PromiseStatus.rejected dC } : InFlightPromise)
      ∈ (Client.appWillTerminateListener sC1 dC).ws.inFlightPromises :=
  (claim_C1_crash_handling sC1 dC).1 pendingInvoke (by decide) rfl

/-- C2 counterexample: the claim says a throwing producer makes `execute`
reject with a sanitized error and flip `lastRunSuccessful` to false.  On the
code, the producer is called before the try/catch (Client.js line 92), so at
this concrete input the raw error propagates unsanitized (sanitizing it would
have removed its internal frame) and `successfulTestRun` stays true. -/
theorem claim_C2_counterexample :
    (Client.execute (Client.construct cfg0 none)
        (Client.Invocation.producer (fun _ => Except.error errProducer))
        (fun v : String => Except.ok v) 0).2.successfulTestRun = true
  ∧ (Client.execute (Client.construct cfg0 none)
        (Client.Invocation.producer (fun _ => Except.error errProducer))
        (fun v : String => Except.ok v) 0).1 = Except.error errProducer
  ∧ removeInternalStackEntries (asError errProducer) ≠ errProducer := by
  refine ⟨rfl, rfl, ?_⟩
  decide

/-- C2 (amended): if the argument normalizes to a value `v` (a ready value, or
a producer that returns `v`), `execute` resolves to the Invoke action's
interpreted result for `v` when the dispatch succeeds; if the dispatched
Invoke action fails, `execute` rejects with the sanitized error and
`successfulTestRun` becomes false; if the producer itself throws, `execute`
rejects with the producer's raw error and the state — `successfulTestRun`
included — is unchanged. -/
theorem claim_C2_amended_roundtrip {α β : Type} (s : ClientState)
    (invocation : Client.Invocation α) (sendInvoke : α → Except JsError β)
    (tid : Nat) :
    (∀ v r, Client.normalizeInvocation invocation = Except.ok v →
       sendInvoke v = Except.ok r →
       Client.execute s invocation sendInvoke tid =
         (Except.ok r,
          if Client.timeoutConfigured s
          then { s with slowInvocationStatusHandler := some tid } else s))
  ∧ (∀ v e, Client.normalizeInvocation invocation = Except.ok v →
       sendInvoke v = Except.error e →
       (Client.execute s invocation sendInvoke tid).1 =
          Except.error (removeInternalStackEntries (asError e))
     ∧ (Client.execute s invocation sendInvoke tid).2.successfulTestRun = false)
  ∧ (∀ e, Client.normalizeInvocation invocation = Except.error e →
       Client.execute s invocation sendInvoke tid = (Except.error e, s)) := by
  refine ⟨?_, ?_, ?_⟩
  · intro v r hn hs
    by_cases h : Client.timeoutConfigured s = true <;> simp [Client.execute, hn, hs, h]
  · intro v e hn hs
    by_cases h : Client.timeoutConfigured s = true <;> simp [Client.execute, hn, hs, h]
  · intro e hn
    simp [Client.execute, hn]

/-- C2 amended witness: a ready value round-trips to the interpreted result on
a client with no watchdog interval configured. -/
theorem claim_C2_amended_witness :
    Client.execute (Client.construct cfg0 none) (Client.Invocation.value "tap")
      (fun _ : String => Except.ok "tapResult") 0 =
      (Except.ok "tapResult",
       if Client.timeoutConfigured (Client.construct cfg0 none)
       then { Client.construct cfg0 none with slowInvocationStatusHandler := some 0 }
       else Client.construct cfg0 none) :=
  (claim_C2_amended_roundtrip (Client.construct cfg0 none)
    (Client.Invocation.value "tap") (fun _ : String => Except.ok "tapResult") 0).1
    "tap" "tapResult" rfl rfl

/-- C7: the claim says that once an invocation that armed the watchdog
settles, no watchdog timer remains scheduled and no further status query is
sent on its behalf.  The code (Client.js lines 104-105, 138-145) violates
this: if the watchdog fires and its callback is awaiting the currentStatus
reply when the invocation settles, the `finally` block's `clearTimeout` acts
on the already-fired handle, and the callback's resumption at line 142
reschedules a fresh timer after the invocation settled.  Concretely, after
arm; fire(0); settle; status-reply, timer 1 is still scheduled while the
invocation is settled, and its later firing sends one more status query. -/
theorem claim_C7_dangling_watchdog :
    ((wrun watchdogInit [WatchdogEvent.arm, WatchdogEvent.timerFire 0,
        WatchdogEvent.invokeSettle, WatchdogEvent.statusReply]).settled = true
  ∧ (wrun watchdogInit [WatchdogEvent.arm, WatchdogEvent.timerFire 0,
        WatchdogEvent.invokeSettle, WatchdogEvent.statusReply]).scheduled = [1])
  ∧ (wrun watchdogInit [WatchdogEvent.arm, WatchdogEvent.timerFire 0,
        WatchdogEvent.invokeSettle, WatchdogEvent.statusReply,
        WatchdogEvent.timerFire 1]).statusSentAfterSettle = 1 := by
  decide

/-- C9: `getPendingCrashAndReset` mutates only the `pandingAppCrash` field —
the connection flag, the run-success flag, the watchdog handle and the whole
transport (its open state and in-flight bookkeeping included) are unchanged —
and the operation dispatches no message through the transport. -/
theorem claim_C9_getPendingCrash_frame (s : ClientState) :
    (Client.getPendingCrashAndReset s).2 = { s with pandingAppCrash := none }
  ∧ (Client.getPendingCrashAndReset s).2.isConnected = s.isConnected
  ∧ (Client.getPendingCrashAndReset s).2.successfulTestRun = s.successfulTestRun
  ∧ (Client.getPendingCrashAndReset s).2.slowInvocationStatusHandler
      = s.slowInvocationStatusHandler
  ∧ (Client.getPendingCrashAndReset s).2.ws = s.ws
  ∧ Client.stepSends s ClientOp.getPendingCrashAndResetOp = [] :=
  ⟨rfl, rfl, rfl, rfl, rfl, rfl⟩

/-- C10: when every in-flight transport entry is a currentStatus (watchdog)
request, `dumpPendingRequests` emits no warning and leaves the state — the
in-flight bookkeeping included — untouched. -/
theorem claim_C10_dump_all_status_noop (s : ClientState) (t : Option String)
    (h : ∀ p ∈ s.ws.inFlightPromises, p.message.type = "currentStatus") :
    (Client.dumpPendingRequests s t).warning = none
  ∧ (Client.dumpPendingRequests s t).state = s
  ∧ (Client.dumpPendingRequests s t).state.ws.inFlightPromises
      = s.ws.inFlightPromises := by
  have hempty : ((s.ws.inFlightPromises.map (fun p => p.message)).filter
      (fun m => m.type != "currentStatus")) = [] := by
    rw [List.filter_eq_nil_iff]
    intro m hm
    rcases List.mem_map.mp hm with ⟨p, hp, hmp⟩
    simp [← hmp, h p hp]
  refine ⟨?_, ?_, ?_⟩ <;> simp [Client.dumpPendingRequests, hempty]

/-- C10 witness: a client whose only in-flight entry is a currentStatus poll
keeps it in flight and warns nothing. -/
theorem claim_C10_witness :
    (Client.dumpPendingRequests
      { Client.construct cfg0 none with
        ws := { isOpenFlag := true
              , inFlightPromises :=
                  [ { message := { messageId := 3, type := "currentStatus", params := "[]" }
                    , status := PromiseStatus.pending } ] } } none).warning = none :=
  (claim_C10_dump_all_status_noop _ none (by decide)).1

/-- C3 counterexample: the claim says `isConnected` is cleared regardless of
the send's outcome.  On a connected, crash-free client with an open channel
whose Cleanup send rejects, the await at Client.js line 50 throws before
line 52 runs: the Cleanup action was dispatched (parameterized true), cleanup
rejects with the send's error, and `isConnected` is still true. -/
theorem claim_C3_counterexample :
    (Client.cleanup sConnectedOpen (Except.error errSend)).sentCleanup = some true
  ∧ (Client.cleanup sConnectedOpen (Except.error errSend)).result = Except.error errSend
  ∧ (Client.cleanup sConnectedOpen (Except.error errSend)).state.isConnected = true := by
  decide

/-- C3 (amended): in `cleanup()` on a connected client with no pending crash
and an open channel, a Cleanup action parameterized by the current
`successfulTestRun` is sent; if that send succeeds, `isConnected` is set to
false; if it fails, the error propagates out of `cleanup` and the state —
`isConnected` still true — is unchanged. -/
theorem claim_C3_amended_cleanup (s : ClientState) (o : Except JsError Unit)
    (hc : s.isConnected = true) (hp : s.pandingAppCrash = none)
    (ho : s.ws.isOpen = true) :
    (Client.cleanup s o).sentCleanup = some s.successfulTestRun
  ∧ (o = Except.ok () → (Client.cleanup s o).state.isConnected = false)
  ∧ (∀ e, o = Except.error e →
      (Client.cleanup s o).result = Except.error e
    ∧ (Client.cleanup s o).state = s) := by
  have hof : s.ws.isOpenFlag = true := ho
  refine ⟨cleanup_sentCleanup_eligible s o hc hp hof, ?_, ?_⟩
  · intro hok
    subst hok
    simp [Client.cleanup, AsyncWebSocket.isOpen, AsyncWebSocket.close, hc, hp, hof]
  · intro e he
    subst he
    simp [Client.cleanup, AsyncWebSocket.isOpen, hc, hp, hof]

/-- C3 amended witness: on the connected/open/crash-free client with a
succeeding send, the Cleanup action carries the current run-success flag. -/
theorem claim_C3_amended_witness :
    (Client.cleanup sConnectedOpen (Except.ok ())).sentCleanup
      = some sConnectedOpen.successfulTestRun :=
  (claim_C3_amended_cleanup sConnectedOpen (Except.ok ()) rfl rfl rfl).1

/-- C4: whenever the channel is already closed, or a crash is pending, or the
client was never connected, `cleanup()` resolves (never throws), sends no
Cleanup action, and leaves the channel closed. -/
theorem claim_C4_cleanup_safe (s : ClientState) (o : Except JsError Unit)
    (h : s.ws.isOpen = false ∨ s.pandingAppCrash.isSome = true ∨ s.isConnected = false) :
    (Client.cleanup s o).result = Except.ok ()
  ∧ (Client.cleanup s o).sentCleanup = none
  ∧ (Client.cleanup s o).state.ws.isOpen = false := by
  rcases h with h | h | h <;>
    cases o <;> cases hcn : s.isConnected <;>
    rcases hpc : s.pandingAppCrash with _ | d <;> cases hws : s.ws.isOpenFlag <;>
    simp_all [Client.cleanup, AsyncWebSocket.isOpen, AsyncWebSocket.close]

/-- C4 witness: cleanup on a connected client with a pending crash and an open
channel resolves, sends nothing, and closes the channel. -/
theorem claim_C4_witness :
    (Client.cleanup sConnectedCrash (Except.error errSend)).result = Except.ok ()
  ∧ (Client.cleanup sConnectedCrash (Except.error errSend)).sentCleanup = none
  ∧ (Client.cleanup sConnectedCrash (Except.error errSend)).state.ws.isOpen = false :=
  claim_C4_cleanup_safe sConnectedCrash (Except.error errSend) (Or.inr (Or.inl rfl))

/-- C5 counterexample: the claim says the connected flag is false after any
completed `cleanup()`, across every combination of crash-pending and
channel-open states.  On a connected client with a pending crash, `cleanup()`
completes (resolves) but skips the whole connected/no-crash branch, so the
flag is still true afterwards. -/
theorem claim_C5_counterexample :
    (Client.cleanup sConnectedCrash (Except.ok ())).result = Except.ok ()
  ∧ (Client.cleanup sConnectedCrash (Except.ok ())).state.isConnected = true := by
  decide

/-- C5 (amended): the connected flag is false at construction and becomes true
only through a successful `waitUntilReady()`; after any completed `cleanup()`
the flag equals (was connected AND crash pending) — in particular it is false
whenever no crash was pending, but a connected client with a pending crash
keeps the flag set (the client is logically unusable without the flag being
force-cleared). -/
theorem claim_C5_amended_connected_flag :
    (∀ c t, (Client.construct c t).isConnected = false)
  ∧ (∀ s op, (Client.step s op).isConnected = true →
       s.isConnected = true ∨ op = ClientOp.waitUntilReadyOp (Except.ok ()))
  ∧ (∀ s o, (Client.cleanup s o).result = Except.ok () →
       (Client.cleanup s o).state.isConnected
         = (s.isConnected && s.pandingAppCrash.isSome)) := by
  refine ⟨fun c t => rfl, ?_, fun s o h => cleanup_completed_isConnected s o h⟩
  intro s op h
  cases op with
  | connectOp o l =>
    left
    cases o with
    | error e => exact h
    | ok u =>
      cases l with
      | error e => exact h
      | ok u2 => exact h
  | waitUntilReadyOp r =>
    cases r with
    | error e => left; exact h
    | ok u => right; rfl
  | simpleSendOp k o => left; exact h
  | executeOp inv send tid =>
    left
    exact (execute_preserves_frame s inv send tid).1.symm.trans h
  | cleanupOp o =>
    left
    exact cleanup_state_isConnected_true s o h
  | crashNoticeOp d => left; exact h
  | getPendingCrashAndResetOp => left; exact h
  | dumpPendingRequestsOp t =>
    left
    rw [← dump_preserves_isConnected s t]
    exact h

/-- C5 witness: a completed cleanup on the connected client with a pending
crash leaves the flag equal to (connected AND crash-pending), here true. -/
theorem claim_C5_witness :
    (Client.cleanup sConnectedCrash (Except.ok ())).state.isConnected
      = (sConnectedCrash.isConnected && sConnectedCrash.pandingAppCrash.isSome) :=
  claim_C5_amended_connected_flag.2.2 sConnectedCrash (Except.ok ()) (by decide)

/-- C8: `successfulTestRun` starts true at construction; a failing Invoke
dispatch in `execute` flips it to false; an eligible `cleanup` sends its
Cleanup action parameterized by the flag's current value; and after a failed
`execute` on an eligible client, `cleanup` still sends its Cleanup action,
now parameterized false — the failure never blocks cleanup. -/
theorem claim_C8_lastRunSuccessful :
    (∀ c t, (Client.construct c t).successfulTestRun = true)
  ∧ (∀ (s : ClientState) (v : String) (send : String → Except JsError String)
        (tid : Nat) (e : JsError), send v = Except.error e →
        (Client.execute s (Client.Invocation.value v) send tid).2.successfulTestRun = false)
  ∧ (∀ s o, s.isConnected = true → s.pandingAppCrash = none → s.ws.isOpen = true →
        (Client.cleanup s o).sentCleanup = some s.successfulTestRun)
  ∧ (∀ (s : ClientState) (v : String) (send : String → Except JsError String)
        (tid : Nat) (e : JsError) (o : Except JsError Unit),
        send v = Except.error e →
        s.isConnected = true → s.pandingAppCrash = none → s.ws.isOpen = true →
        (Client.cleanup
          (Client.execute s (Client.Invocation.value v) send tid).2 o).sentCleanup
          = some false) := by
  refine ⟨fun c t => rfl, ?_, ?_, ?_⟩
  · intro s v send tid e he
    by_cases h : Client.timeoutConfigured s = true <;>
      simp [Client.execute, Client.normalizeInvocation, he, h]
  · intro s o hc hp ho
    exact cleanup_sentCleanup_eligible s o hc hp ho
  · intro s v send tid e o he hc hp ho
    have hframe := execute_preserves_frame s (Client.Invocation.value v) send tid
    have hfail : (Client.execute s (Client.Invocation.value v) send tid).2.successfulTestRun
        = false := by
      by_cases h : Client.timeoutConfigured s = true <;>
        simp [Client.execute, Client.normalizeInvocation, he, h]
    have hsent := cleanup_sentCleanup_eligible
      (Client.execute s (Client.Invocation.value v) send tid).2 o
      (hframe.1.trans hc) (hframe.2.1.trans hp)
      (by rw [hframe.2.2]; exact ho)
    rw [hsent, hfail]

/-- C8 witness: on the connected/open/crash-free client, a failed execute
followed by cleanup dispatches a Cleanup action parameterized false. -/
theorem claim_C8_witness :
    (Client.cleanup
      (Client.execute sConnectedOpen (Client.Invocation.value "tap")
        (fun _ : String => (Except.error errSend : Except JsError String)) 0).2
      (Except.ok ())).sentCleanup = some false :=
  claim_C8_lastRunSuccessful.2.2.2 sConnectedOpen "tap"
    (fun _ => Except.error errSend) 0 errSend (Except.ok ()) rfl rfl rfl rfl

/-- A client whose transport holds a pending login, a pending currentStatus
poll, and a pending invoke request. -/
def sC6 : ClientState :=
  { Client.construct cfg0 none with
    ws := { isOpenFlag := true
          , inFlightPromises :=
              [ { message := { messageId := 1, type := "login", params := "[]" }
                , status := PromiseStatus.pending }
              , { message := { messageId := 2, type := "currentStatus", params := "[]" }
                , status := PromiseStatus.pending }
              , { message := { messageId := 3, type := "invoke", params := "[]" }
                , status := PromiseStatus.pending } ] } }

/-- C6: for an in-flight set holding a login, a currentStatus, and an invoke
request, `dumpPendingRequests` emits a warning listing exactly the login and
invoke entries — one formatted line each carrying the id, the kind, and the
params — plus the contextual note naming the timed-out test, and afterwards
the transport's in-flight bookkeeping is empty. -/
theorem claim_C6_dump_excludes_status (s : ClientState)
    (idA idB idC : Nat) (pA pB pC : String) (stA stB stC : PromiseStatus) (t : String)
    (hfl : s.ws.inFlightPromises =
      [ { message := { messageId := idA, type := "login", params := pA }, status := stA }
      , { message := { messageId := idB, type := "currentStatus", params := pB }, status := stB }
      , { message := { messageId := idC, type := "invoke", params := pC }, status := stC } ]) :
    (Client.dumpPendingRequests s (some t)).warning =
      some ("App has not responded to the network requests below:"
        ++ Client.formatPendingLine { messageId := idA, type := "login", params := pA }
        ++ Client.formatPendingLine { messageId := idC, type := "invoke", params := pC }
        ++ "\n\n"
        ++ ("That might be the reason why the test \"" ++ t ++ "\" has timed out.")
        ++ "\n")
  ∧ (Client.dumpPendingRequests s (some t)).state.ws.inFlightPromises = [] := by
  have h1 : (("login" : String) != "currentStatus") = true := by decide
  have h2 : (("currentStatus" : String) != "currentStatus") = false := by decide
  have h3 : (("invoke" : String) != "currentStatus") = true := by decide
  constructor <;>
    simp [Client.dumpPendingRequests, hfl, AsyncWebSocket.resetInFlightPromises,
      List.filter, h1, h2, h3]

/-- C6 witness: on the concrete three-request client, the dump leaves the
in-flight bookkeeping empty. -/
theorem claim_C6_witness :
    (Client.dumpPendingRequests sC6 (some "myTest")).state.ws.inFlightPromises = [] :=
  (claim_C6_dump_excludes_status sC6 1 2 3 "[]" "[]" "[]"
    PromiseStatus.pending PromiseStatus.pending PromiseStatus.pending "myTest" rfl).2
